import Mathlib

/-!
# basic_example_Timer32: button-mirrored LED1 and a Timer32-driven blinking LED2

A shallow embedding of `src/basic_example_Timer32.c`.

The C program talks to the MSP432 peripherals only through TI Driverlib calls
(`GPIO_*`, `Timer32_*`, `WDT_A_hold`).  Driverlib is an external library that
is not part of the repository, so the peripherals are modelled here as an
explicit state `Periph`, threaded through every function, following the
interface that section 6 of the specification lists.  Every Driverlib call
also appends one entry to `Periph.trace`, a ghost log that lets theorems speak
about which calls were made, how often and in which order.

The functions of the C file (the C function `initialize`, the LED and switch
HAL functions and the body of the loop of `main`) are translated statement by
statement.  The environment (timer ticks, the button) acts between two loop
iterations.  The file is compiled with `#define Timer32` (line 19), so the
preprocessor keeps lines 71-80 of `main` and drops the busy-wait alternative
of lines 82-85; `loopBody` is that compiled body, and `loopBodyOf` is the loop
body with the `#ifdef` still in it.  A second ghost field, `Periph.spins`,
counts the passes of inner loops, so that busy waiting is visible in the
state.
-/

namespace Timer32Example

/-! ## Constants of the C file -/

/-- Line 27: `#define LEFT_BUTTON (1<<1)`. -/
def LEFT_BUTTON : Nat := 1 <<< 1

/-- Line 31: `#define LEFT_LED (1<<0)`. -/
def LEFT_LED : Nat := 1 <<< 0

/-- Line 35: `#define PRESSED 0`, a pressed button is grounded (logic 0). -/
def PRESSED : Nat := 0

/-- Line 40: `#define ONE_SEC_COUNT 3000000`. -/
def ONE_SEC_COUNT : Nat := 3000000

/-- Line 41: `#define HALF_SEC_COUNT 1500000`. -/
def HALF_SEC_COUNT : Nat := 1500000

/-- Line 42: `#define TWO_SEC_COUNT 6000000`. -/
def TWO_SEC_COUNT : Nat := 6000000

/-- Clock frequency in Hz named by the comment of lines 38-39 ("with 3MHz clock"). -/
def CLOCK_HZ : Nat := 3000000

/-! ## Identifiers supplied by the Driverlib headers -/

/-- GPIO ports of the device. -/
inductive GPIOPort
  | GPIO_PORT_P1 | GPIO_PORT_P2 | GPIO_PORT_P3 | GPIO_PORT_P4 | GPIO_PORT_P5
  | GPIO_PORT_P6 | GPIO_PORT_P7 | GPIO_PORT_P8 | GPIO_PORT_P9 | GPIO_PORT_P10
  | GPIO_PORT_PJ
  deriving DecidableEq, Repr

/-- Pins of one GPIO port. -/
inductive GPIOPin
  | GPIO_PIN0 | GPIO_PIN1 | GPIO_PIN2 | GPIO_PIN3
  | GPIO_PIN4 | GPIO_PIN5 | GPIO_PIN6 | GPIO_PIN7
  deriving DecidableEq, Repr

/-- The two Timer32 instances ("There are two timers", line 106). -/
inductive Timer32Base
  | TIMER32_0_BASE | TIMER32_1_BASE
  deriving DecidableEq, Repr

/-- The watchdog instance. -/
inductive WDTBase
  | WDT_A_BASE
  deriving DecidableEq, Repr

/-- Prescaler settings of a Timer32. -/
inductive Timer32Prescaler
  | TIMER32_PRESCALER_1 | TIMER32_PRESCALER_16 | TIMER32_PRESCALER_256
  deriving DecidableEq, Repr

/-- Counter width of a Timer32 ("the alternative is 16-bit mode", line 108). -/
inductive Timer32Resolution
  | TIMER32_16BIT | TIMER32_32BIT
  deriving DecidableEq, Repr

/-- Counting mode of a Timer32. -/
inductive Timer32Mode
  | TIMER32_FREE_RUN_MODE | TIMER32_PERIODIC_MODE
  deriving DecidableEq, Repr

open GPIOPort GPIOPin Timer32Base WDTBase Timer32Prescaler Timer32Resolution Timer32Mode

/-! ## Peripheral state -/

/-- One Driverlib call, with its arguments, as recorded in the ghost log. -/
inductive Op
  | WDT_A_hold (base : WDTBase)
  | GPIO_setAsOutputPin (port : GPIOPort) (pin : GPIOPin)
  | GPIO_setAsInputPinWithPullUpResistor (port : GPIOPort) (pin : GPIOPin)
  | GPIO_setOutputHighOnPin (port : GPIOPort) (pin : GPIOPin)
  | GPIO_setOutputLowOnPin (port : GPIOPort) (pin : GPIOPin)
  | GPIO_toggleOutputOnPin (port : GPIOPort) (pin : GPIOPin)
  | GPIO_getInputPinValue (port : GPIOPort) (pin : GPIOPin)
  | Timer32_initModule (timer : Timer32Base) (preScaler : Timer32Prescaler)
      (resolution : Timer32Resolution) (mode : Timer32Mode)
  | Timer32_setCount (timer : Timer32Base) (count : Nat)
  | Timer32_startTimer (timer : Timer32Base) (oneShot : Bool)
  | Timer32_getValue (timer : Timer32Base)
  deriving DecidableEq, Repr

/-- Registers of one Timer32 instance: the configuration written by
`Timer32_initModule`, the load and current-value registers, and the enable and
one-shot bits written by `Timer32_startTimer`. -/
structure Timer32State where
  preScaler : Timer32Prescaler
  resolution : Timer32Resolution
  mode : Timer32Mode
  load : Nat
  value : Nat
  enabled : Bool
  oneShot : Bool
  deriving DecidableEq, Repr

/-- State of the peripherals the program touches, plus the ghost log of
Driverlib calls (oldest call first). -/
structure Periph where
  /-- watchdog timer held (stopped) -/
  wdtHeld : Bool
  /-- pin configured as an output -/
  dirOut : GPIOPort → GPIOPin → Bool
  /-- pin configured as an input with the pull-up resistor enabled -/
  pullUp : GPIOPort → GPIOPin → Bool
  /-- level of the output latch of a pin, `true` is high -/
  out : GPIOPort → GPIOPin → Bool
  /-- value that reading the input pin returns, `0` is logic low -/
  inp : GPIOPort → GPIOPin → Nat
  /-- the Timer32 instances -/
  timer : Timer32Base → Timer32State
  /-- ghost log of the Driverlib calls made so far -/
  trace : List Op
  /-- ghost counter of the inner-loop iterations executed so far (the passes
  of a busy-wait `for` loop) -/
  spins : Nat

/-- Pointwise update of a per-pin table. -/
def setPin {α : Type} (f : GPIOPort → GPIOPin → α) (port : GPIOPort) (pin : GPIOPin) (v : α) :
    GPIOPort → GPIOPin → α :=
  fun p q => if p = port ∧ q = pin then v else f p q

/-- Pointwise update of the per-instance timer table. -/
def setTimer (f : Timer32Base → Timer32State) (timer : Timer32Base) (t : Timer32State) :
    Timer32Base → Timer32State :=
  fun b => if b = timer then t else f b

/-- Append one call to the ghost log. -/
def logOp (op : Op) (s : Periph) : Periph :=
  { s with trace := s.trace ++ [op] }

/-! ## Driverlib primitives -/

/-- Modelled from the spec: Driverlib's `WDT_A_hold` is not part of the sources;
"watchdog disable" of section 1. -/
def WDT_A_hold (base : WDTBase) (s : Periph) : Periph :=
  logOp (Op.WDT_A_hold base) { s with wdtHeld := true }

/-- Modelled from the spec: Driverlib's `GPIO_setAsOutputPin` is not part of the
sources; `pin_configure_output(port, pin)` of section 6. -/
def GPIO_setAsOutputPin (port : GPIOPort) (pin : GPIOPin) (s : Periph) : Periph :=
  logOp (Op.GPIO_setAsOutputPin port pin)
    { s with dirOut := setPin s.dirOut port pin true, pullUp := setPin s.pullUp port pin false }

/-- Modelled from the spec: Driverlib's `GPIO_setAsInputPinWithPullUpResistor` is
not part of the sources; `pin_configure_input_pullup(port, pin)` of section 6. -/
def GPIO_setAsInputPinWithPullUpResistor (port : GPIOPort) (pin : GPIOPin) (s : Periph) :
    Periph :=
  logOp (Op.GPIO_setAsInputPinWithPullUpResistor port pin)
    { s with dirOut := setPin s.dirOut port pin false, pullUp := setPin s.pullUp port pin true }

/-- Modelled from the spec: Driverlib's `GPIO_setOutputHighOnPin` is not part of
the sources; `pin_write_high(port, pin)` of section 6. -/
def GPIO_setOutputHighOnPin (port : GPIOPort) (pin : GPIOPin) (s : Periph) : Periph :=
  logOp (Op.GPIO_setOutputHighOnPin port pin) { s with out := setPin s.out port pin true }

/-- Modelled from the spec: Driverlib's `GPIO_setOutputLowOnPin` is not part of
the sources; `pin_write_low(port, pin)` of section 6. -/
def GPIO_setOutputLowOnPin (port : GPIOPort) (pin : GPIOPin) (s : Periph) : Periph :=
  logOp (Op.GPIO_setOutputLowOnPin port pin) { s with out := setPin s.out port pin false }

/-- Modelled from the spec: Driverlib's `GPIO_toggleOutputOnPin` is not part of
the sources; `pin_toggle(port, pin)` of section 6. -/
def GPIO_toggleOutputOnPin (port : GPIOPort) (pin : GPIOPin) (s : Periph) : Periph :=
  logOp (Op.GPIO_toggleOutputOnPin port pin)
    { s with out := setPin s.out port pin (!(s.out port pin)) }

/-- Modelled from the spec: Driverlib's `GPIO_getInputPinValue` is not part of
the sources; `pin_read(port, pin)` of section 6.  Returns the level and the
state, in which only the ghost log has grown. -/
def GPIO_getInputPinValue (port : GPIOPort) (pin : GPIOPin) (s : Periph) : Nat × Periph :=
  (s.inp port pin, logOp (Op.GPIO_getInputPinValue port pin) s)

/-- Modelled from the spec: Driverlib's `Timer32_initModule` is not part of the
sources; `countdown_init(instance_id, prescaler, width_mode, mode)` of
section 6. -/
def Timer32_initModule (timer : Timer32Base) (preScaler : Timer32Prescaler)
    (resolution : Timer32Resolution) (mode : Timer32Mode) (s : Periph) : Periph :=
  logOp (Op.Timer32_initModule timer preScaler resolution mode)
    { s with timer := setTimer s.timer timer { s.timer timer with
        preScaler := preScaler, resolution := resolution, mode := mode } }

/-- Modelled from the spec: Driverlib's `Timer32_setCount` is not part of the
sources; `countdown_set_value(instance_id, value: u32)` of section 6.  The
argument is a `uint32_t`, hence the reduction modulo `2^32`; the countdown is
(re)loaded with it. -/
def Timer32_setCount (timer : Timer32Base) (count : Nat) (s : Periph) : Periph :=
  logOp (Op.Timer32_setCount timer count)
    { s with timer := setTimer s.timer timer { s.timer timer with
        load := count % 2 ^ 32, value := count % 2 ^ 32 } }

/-- Modelled from the spec: Driverlib's `Timer32_startTimer` is not part of the
sources; `countdown_start(instance_id, one_shot: bool)` of section 6. -/
def Timer32_startTimer (timer : Timer32Base) (oneShot : Bool) (s : Periph) : Periph :=
  logOp (Op.Timer32_startTimer timer oneShot)
    { s with timer := setTimer s.timer timer { s.timer timer with
        enabled := true, oneShot := oneShot } }

/-- Modelled from the spec: Driverlib's `Timer32_getValue` is not part of the
sources; `countdown_read_value(instance_id) -> u32` of section 6.  Returns the
current value and the state, in which only the ghost log has grown. -/
def Timer32_getValue (timer : Timer32Base) (s : Periph) : Nat × Periph :=
  ((s.timer timer).value, logOp (Op.Timer32_getValue timer) s)

/-! ## The HAL functions of the C file (lines 115-143) -/

/-- Lines 115-118. -/
def TurnOn_Launchpad_LED1 (s : Periph) : Periph :=
  GPIO_setOutputHighOnPin GPIO_PORT_P1 GPIO_PIN0 s

/-- Lines 120-123. -/
def TurnOff_Launchpad_LED1 (s : Periph) : Periph :=
  GPIO_setOutputLowOnPin GPIO_PORT_P1 GPIO_PIN0 s

/-- Lines 125-128: `return ((GPIO_getInputPinValue(GPIO_PORT_P1, GPIO_PIN1) == PRESSED));`
The C comparison yields `1` or `0`. -/
def S1isPressed (s : Periph) : Nat × Periph :=
  let r := GPIO_getInputPinValue GPIO_PORT_P1 GPIO_PIN1 s
  (if r.1 = PRESSED then 1 else 0, r.2)

/-- Lines 130-133. -/
def TurnOn_Launchpad_Green_LED2 (s : Periph) : Periph :=
  GPIO_setOutputHighOnPin GPIO_PORT_P2 GPIO_PIN1 s

/-- Lines 135-138. -/
def TurnOff_Launchpad_Green_LED2 (s : Periph) : Periph :=
  GPIO_setOutputLowOnPin GPIO_PORT_P2 GPIO_PIN1 s

/-- Lines 140-143. -/
def Toggle_Launchpad_Green_LED2 (s : Periph) : Periph :=
  GPIO_toggleOutputOnPin GPIO_PORT_P2 GPIO_PIN1 s

/-! ## The C function `initialize` (lines 91-112) -/

/-- The C function `initialize()` of lines 91-112, one Driverlib call per line,
in program order.  The trailing underscore only avoids a reserved word. -/
def initialize_ (s : Periph) : Periph :=
  let s1 := WDT_A_hold WDT_A_BASE s
  let s2 := GPIO_setAsOutputPin GPIO_PORT_P1 GPIO_PIN0 s1
  let s3 := GPIO_setAsOutputPin GPIO_PORT_P2 GPIO_PIN1 s2
  let s4 := GPIO_setAsInputPinWithPullUpResistor GPIO_PORT_P1 GPIO_PIN1 s3
  let s5 := Timer32_initModule TIMER32_0_BASE TIMER32_PRESCALER_1 TIMER32_32BIT
    TIMER32_PERIODIC_MODE s4
  let s6 := Timer32_setCount TIMER32_0_BASE ONE_SEC_COUNT s5
  Timer32_startTimer TIMER32_0_BASE true s6

/-! ## The loop of `main` (lines 61-87) -/

/-- Lines 62-68: `if (!S1isPressed()) TurnOff_Launchpad_LED1(); else TurnOn_Launchpad_LED1();` -/
def mirrorStep (s : Periph) : Periph :=
  let r := S1isPressed s
  if r.1 = 0 then TurnOff_Launchpad_LED1 r.2 else TurnOn_Launchpad_LED1 r.2

/-- Lines 71-80: the Timer32 check and, on expiry, toggle, reload and restart. -/
def timerStep (s : Periph) : Periph :=
  let r := Timer32_getValue TIMER32_0_BASE s
  if r.1 = 0 then
    let s1 := Toggle_Launchpad_Green_LED2 r.2
    let s2 := Timer32_setCount TIMER32_0_BASE ONE_SEC_COUNT s1
    Timer32_startTimer TIMER32_0_BASE true s2
  else r.2

/-- One iteration of the `while (1)` loop of `main` (lines 61-87 with `Timer32`
defined): the mirroring statement, then the timer statement. -/
def loopBody (s : Periph) : Periph :=
  timerStep (mirrorStep s)

/-! ## The loop of `main` before preprocessing (lines 61-87) -/

/-- Line 19: `#define Timer32`; `true` stands for "the symbol is defined". -/
def Timer32 : Bool := true

/-- Lines 82-84: `int i; for (i=0;i<240000;i++);` entered with the loop counter
at `i`.  The loop touches no peripheral; each pass is counted in the ghost
counter `spins`. -/
def busyWait (i : Nat) (s : Periph) : Periph :=
  if i < 240000 then busyWait (i + 1) { s with spins := s.spins + 1 } else s
termination_by 240000 - i

/-- Lines 82-85, the `#else` branch: the busy-wait loop from `i = 0`, then
`Toggle_Launchpad_Green_LED2();`. -/
def delayStep (s : Periph) : Periph :=
  Toggle_Launchpad_Green_LED2 (busyWait 0 s)

/-- One iteration of the `while (1)` loop of `main` as written in lines 61-87:
the mirroring statement, then the branch that `#ifdef Timer32` selects. -/
def loopBodyOf (timer32Defined : Bool) (s : Periph) : Periph :=
  let s1 := mirrorStep s
  if timer32Defined then timerStep s1 else delayStep s1

/-! ## The environment: timer ticks and the button -/

/-- Modelled from the spec: the hardware countdown is not part of the sources;
glossary entries "Countdown source" and "One-shot mode".  One counting step of
a Timer32: an enabled counter decrements by one; at zero it halts in one-shot
mode and reloads otherwise. -/
def Timer32State.tick (t : Timer32State) : Timer32State :=
  if t.enabled then
    if t.value = 0 then
      if t.oneShot then t else { t with value := t.load }
    else { t with value := t.value - 1 }
  else t

/-- One counting step of every Timer32 instance. -/
def tick (s : Periph) : Periph :=
  { s with timer := fun b => (s.timer b).tick }

/-- The effect of `n` counting steps. -/
def ticks : Nat → Periph → Periph
  | 0, s => s
  | n + 1, s => ticks n (tick s)

/-- What the environment does between two loop iterations: some timer ticks
elapse and the button S1 (P1.1) takes a level. -/
structure Env where
  ticks : Nat
  s1Level : Nat
  deriving DecidableEq, Repr

/-- Apply the environment's step to the peripheral state. -/
def Env.apply (e : Env) (s : Periph) : Periph :=
  let s1 := Timer32Example.ticks e.ticks s
  { s1 with inp := setPin s1.inp GPIO_PORT_P1 GPIO_PIN1 e.s1Level }

/-- The `while (1)` loop of `main` run for one iteration per environment step:
the environment moves, then the loop body executes. -/
def mainLoop : List Env → Periph → Periph
  | [], s => s
  | e :: es, s => mainLoop es (loopBody (e.apply s))

/-- Lines 56-88: the call of line 59 followed by the loop, run for as many
iterations as there are environment steps. -/
def main (es : List Env) (s : Periph) : Periph :=
  mainLoop es (initialize_ s)

/-- The Driverlib calls made by `f` when started in `s`: the part of the ghost
log that `f` appended. -/
def opsOf (f : Periph → Periph) (s : Periph) : List Op :=
  (f s).trace.drop s.trace.length

/-- A power-on state used for concrete evaluations: everything cleared. -/
def resetState : Periph where
  wdtHeld := false
  dirOut := fun _ _ => false
  pullUp := fun _ _ => false
  out := fun _ _ => false
  inp := fun _ _ => 1
  timer := fun _ =>
    { preScaler := TIMER32_PRESCALER_1, resolution := TIMER32_16BIT,
      mode := TIMER32_FREE_RUN_MODE, load := 0, value := 0xFFFFFFFF,
      enabled := false, oneShot := false }
  trace := []
  spins := 0

/-- A state in which Timer32 instance 0 has run down to zero in one-shot mode
and the button is pressed. -/
def expiredState : Periph :=
  { resetState with
    inp := fun _ _ => 0
    timer := fun _ =>
      { preScaler := TIMER32_PRESCALER_1, resolution := TIMER32_32BIT,
        mode := TIMER32_PERIODIC_MODE, load := 3000000, value := 0,
        enabled := true, oneShot := true } }

/-- A state in which Timer32 instance 0 is still counting down (value 7) in
one-shot mode and the button is released. -/
def countingState : Periph :=
  { resetState with
    timer := fun _ =>
      { preScaler := TIMER32_PRESCALER_1, resolution := TIMER32_32BIT,
        mode := TIMER32_PERIODIC_MODE, load := 3000000, value := 7,
        enabled := true, oneShot := true } }

/-- The kinds of call that the expiry branch of lines 75-79 makes: an output
toggle, a count load and a timer start. -/
def Op.isRearmOrToggle : Op → Bool
  | Op.GPIO_toggleOutputOnPin _ _ => true
  | Op.Timer32_setCount _ _ => true
  | Op.Timer32_startTimer _ _ => true
  | _ => false

/-- Number of timer ticks that elapse over a list of environment steps. -/
def totalTicks (es : List Env) : Nat :=
  (es.map Env.ticks).sum

/-- The countdown of Timer32 instance 0 reads a nonzero value at the timer check
of every iteration of `mainLoop es s`. -/
def allPollsNonzero : List Env → Periph → Bool
  | [], _ => true
  | e :: es, s =>
    decide ((Timer32_getValue TIMER32_0_BASE (e.apply s)).1 ≠ 0)
      && allPollsNonzero es (loopBody (e.apply s))

/-! ## Facts about the update functions -/

@[simp]
theorem setTimer_same (f : Timer32Base → Timer32State) (b : Timer32Base)
    (t : Timer32State) : setTimer f b t b = t := by
  simp [setTimer]

@[simp]
theorem setTimer_overwrite (f : Timer32Base → Timer32State) (b : Timer32Base)
    (t u : Timer32State) : setTimer (setTimer f b t) b u = setTimer f b u := by
  funext c
  by_cases h : c = b <;> simp [setTimer, h]

theorem setTimer_other (f : Timer32Base → Timer32State) (b c : Timer32Base)
    (t : Timer32State) (h : c ≠ b) : setTimer f b t c = f c := by
  simp [setTimer, h]

@[simp]
theorem setPin_same {α : Type} (f : GPIOPort → GPIOPin → α) (port : GPIOPort)
    (pin : GPIOPin) (v : α) : setPin f port pin v port pin = v := by
  simp [setPin]

theorem setPin_other {α : Type} (f : GPIOPort → GPIOPin → α) (port p : GPIOPort)
    (pin q : GPIOPin) (v : α) (h : ¬(p = port ∧ q = pin)) :
    setPin f port pin v p q = f p q := by
  simp only [setPin, if_neg h]

/-! ## Basic facts about the loop body -/

/-- The value returned by `Timer32_getValue` is the current count. -/
theorem getValue_fst (b : Timer32Base) (s : Periph) :
    (Timer32_getValue b s).1 = (s.timer b).value := rfl

/-- The mirroring statement appends the pin read and one LED1 write, sets the
LED1 latch according to the level read and changes nothing else. -/
theorem mirrorStep_eq (s : Periph) :
    mirrorStep s =
      { s with
        out := setPin s.out GPIO_PORT_P1 GPIO_PIN0
          (decide (s.inp GPIO_PORT_P1 GPIO_PIN1 = PRESSED))
        trace := s.trace ++
          [Op.GPIO_getInputPinValue GPIO_PORT_P1 GPIO_PIN1,
           if s.inp GPIO_PORT_P1 GPIO_PIN1 = PRESSED
           then Op.GPIO_setOutputHighOnPin GPIO_PORT_P1 GPIO_PIN0
           else Op.GPIO_setOutputLowOnPin GPIO_PORT_P1 GPIO_PIN0] } := by
  by_cases h : s.inp GPIO_PORT_P1 GPIO_PIN1 = PRESSED <;>
    simp [mirrorStep, S1isPressed, GPIO_getInputPinValue, TurnOff_Launchpad_LED1,
      TurnOn_Launchpad_LED1, GPIO_setOutputHighOnPin, GPIO_setOutputLowOnPin, logOp, h]

/-- The timer statement when the countdown reads zero. -/
theorem timerStep_zero (s : Periph) (h : (s.timer TIMER32_0_BASE).value = 0) :
    timerStep s =
      { s with
        out := setPin s.out GPIO_PORT_P2 GPIO_PIN1 (!(s.out GPIO_PORT_P2 GPIO_PIN1))
        timer := setTimer s.timer TIMER32_0_BASE { s.timer TIMER32_0_BASE with
          load := ONE_SEC_COUNT, value := ONE_SEC_COUNT, enabled := true, oneShot := true }
        trace := s.trace ++
          [Op.Timer32_getValue TIMER32_0_BASE,
           Op.GPIO_toggleOutputOnPin GPIO_PORT_P2 GPIO_PIN1,
           Op.Timer32_setCount TIMER32_0_BASE ONE_SEC_COUNT,
           Op.Timer32_startTimer TIMER32_0_BASE true] } := by
  simp [timerStep, Timer32_getValue, Toggle_Launchpad_Green_LED2, GPIO_toggleOutputOnPin,
    Timer32_setCount, Timer32_startTimer, logOp, h, setTimer, ONE_SEC_COUNT]

/-- The timer statement when the countdown reads a nonzero value. -/
theorem timerStep_nonzero (s : Periph) (h : (s.timer TIMER32_0_BASE).value ≠ 0) :
    timerStep s = { s with trace := s.trace ++ [Op.Timer32_getValue TIMER32_0_BASE] } := by
  simp [timerStep, Timer32_getValue, logOp, h]

/-- One loop iteration when the countdown reads zero. -/
theorem loopBody_zero (s : Periph) (h : (s.timer TIMER32_0_BASE).value = 0) :
    loopBody s =
      { s with
        out := setPin (setPin s.out GPIO_PORT_P1 GPIO_PIN0
          (decide (s.inp GPIO_PORT_P1 GPIO_PIN1 = PRESSED)))
          GPIO_PORT_P2 GPIO_PIN1 (!(s.out GPIO_PORT_P2 GPIO_PIN1))
        timer := setTimer s.timer TIMER32_0_BASE { s.timer TIMER32_0_BASE with
          load := ONE_SEC_COUNT, value := ONE_SEC_COUNT, enabled := true, oneShot := true }
        trace := s.trace ++
          [Op.GPIO_getInputPinValue GPIO_PORT_P1 GPIO_PIN1,
           if s.inp GPIO_PORT_P1 GPIO_PIN1 = PRESSED
           then Op.GPIO_setOutputHighOnPin GPIO_PORT_P1 GPIO_PIN0
           else Op.GPIO_setOutputLowOnPin GPIO_PORT_P1 GPIO_PIN0,
           Op.Timer32_getValue TIMER32_0_BASE,
           Op.GPIO_toggleOutputOnPin GPIO_PORT_P2 GPIO_PIN1,
           Op.Timer32_setCount TIMER32_0_BASE ONE_SEC_COUNT,
           Op.Timer32_startTimer TIMER32_0_BASE true] } := by
  unfold loopBody
  rw [mirrorStep_eq, timerStep_zero _ (by simpa using h)]
  simp [setPin]

/-- One loop iteration when the countdown reads a nonzero value. -/
theorem loopBody_nonzero (s : Periph) (h : (s.timer TIMER32_0_BASE).value ≠ 0) :
    loopBody s =
      { s with
        out := setPin s.out GPIO_PORT_P1 GPIO_PIN0
          (decide (s.inp GPIO_PORT_P1 GPIO_PIN1 = PRESSED))
        trace := s.trace ++
          [Op.GPIO_getInputPinValue GPIO_PORT_P1 GPIO_PIN1,
           if s.inp GPIO_PORT_P1 GPIO_PIN1 = PRESSED
           then Op.GPIO_setOutputHighOnPin GPIO_PORT_P1 GPIO_PIN0
           else Op.GPIO_setOutputLowOnPin GPIO_PORT_P1 GPIO_PIN0,
           Op.Timer32_getValue TIMER32_0_BASE] } := by
  unfold loopBody
  rw [mirrorStep_eq, timerStep_nonzero _ (by simpa using h)]
  simp

/-- The LED1 latch after one loop iteration, whatever the timer reads. -/
theorem loopBody_led1 (s : Periph) :
    (loopBody s).out GPIO_PORT_P1 GPIO_PIN0 =
      decide (s.inp GPIO_PORT_P1 GPIO_PIN1 = PRESSED) := by
  by_cases h : (s.timer TIMER32_0_BASE).value = 0
  · rw [loopBody_zero s h]; simp [setPin]
  · rw [loopBody_nonzero s h]; simp

/-- The button level is an input: no loop iteration changes it. -/
theorem loopBody_inp (s : Periph) : (loopBody s).inp = s.inp := by
  by_cases h : (s.timer TIMER32_0_BASE).value = 0
  · rw [loopBody_zero s h]
  · rw [loopBody_nonzero s h]

/-! ## Facts about ticks and the environment -/

/-- Ticks change nothing but the timers. -/
theorem ticks_frame (n : Nat) (s : Periph) :
    ticks n s = { s with timer := (ticks n s).timer } := by
  induction n generalizing s with
  | zero => rfl
  | succ n ih => rw [ticks, ih (tick s)]; rfl

theorem ticks_trace (n : Nat) (s : Periph) : (ticks n s).trace = s.trace := by
  rw [ticks_frame]

theorem ticks_out (n : Nat) (s : Periph) : (ticks n s).out = s.out := by
  rw [ticks_frame]

/-- One tick of a one-shot timer: an enabled countdown loses one and stays at
zero once there; a disabled one does not move. -/
theorem Timer32State.tick_oneShot (t : Timer32State) (h : t.oneShot = true) :
    t.tick = if t.enabled then { t with value := t.value - 1 } else t := by
  cases t with
  | mk p r m l v en os =>
    simp only at h
    subst h
    by_cases he : en = true <;> by_cases hv : v = 0 <;> simp [Timer32State.tick, he, hv]

/-- In one-shot mode an enabled countdown loses one per tick and stays at zero
once there; a disabled one does not move. -/
theorem ticks_timer_oneShot (n : Nat) (s : Periph) (b : Timer32Base)
    (h : (s.timer b).oneShot = true) :
    (ticks n s).timer b =
      if (s.timer b).enabled then { s.timer b with value := (s.timer b).value - n }
      else s.timer b := by
  induction n generalizing s with
  | zero => simp [ticks]
  | succ n ih =>
    have hstep : (tick s).timer b =
        if (s.timer b).enabled then { s.timer b with value := (s.timer b).value - 1 }
        else s.timer b := Timer32State.tick_oneShot _ h
    have hone : ((tick s).timer b).oneShot = true := by
      rw [hstep]; split <;> simp [h]
    rw [ticks, ih (tick s) hone, hstep]
    by_cases he : (s.timer b).enabled = true
    · simp [he, Nat.sub_sub, Nat.add_comm]
    · simp [he]

/-- The environment step changes only the timers (by ticking) and the level on
P1.1. -/
theorem Env.apply_timer (e : Env) (s : Periph) :
    (e.apply s).timer = (Timer32Example.ticks e.ticks s).timer := rfl

theorem Env.apply_out (e : Env) (s : Periph) : (e.apply s).out = s.out := by
  simp [Env.apply, ticks_out]

theorem Env.apply_trace (e : Env) (s : Periph) : (e.apply s).trace = s.trace := by
  simp [Env.apply, ticks_trace]

theorem Env.apply_level (e : Env) (s : Periph) :
    (e.apply s).inp GPIO_PORT_P1 GPIO_PIN1 = e.s1Level := by
  simp [Env.apply]

/-! ## Facts about runs of the loop -/

theorem totalTicks_cons (e : Env) (es : List Env) :
    totalTicks (e :: es) = e.ticks + totalTicks es := by
  simp [totalTicks]

theorem totalTicks_append (es : List Env) (e : Env) :
    totalTicks (es ++ [e]) = totalTicks es + e.ticks := by
  simp [totalTicks]

theorem mainLoop_append (es : List Env) (e : Env) (s : Periph) :
    mainLoop (es ++ [e]) s = loopBody (e.apply (mainLoop es s)) := by
  induction es generalizing s with
  | nil => rfl
  | cons a as ih => exact ih (loopBody (a.apply s))

/-- The timers after `n` ticks depend on the timers only. -/
theorem ticks_timer_congr (n : Nat) (s u : Periph) (h : s.timer = u.timer) :
    (ticks n s).timer = (ticks n u).timer := by
  induction n generalizing s u with
  | zero => exact h
  | succ n ih => exact ih (tick s) (tick u) (by simp [tick, h])

theorem ticks_add (a b : Nat) (s : Periph) : ticks (a + b) s = ticks b (ticks a s) := by
  induction a generalizing s with
  | zero => simp [ticks]
  | succ a ih => rw [Nat.succ_add, ticks, ticks, ih]

/-- Timer32 instance 0 after one loop iteration: reloaded and restarted when it
read zero, untouched otherwise. -/
theorem loopBody_timer0 (s : Periph) :
    (loopBody s).timer TIMER32_0_BASE =
      if (s.timer TIMER32_0_BASE).value = 0 then
        { s.timer TIMER32_0_BASE with
          load := ONE_SEC_COUNT, value := ONE_SEC_COUNT, enabled := true, oneShot := true }
      else s.timer TIMER32_0_BASE := by
  by_cases h : (s.timer TIMER32_0_BASE).value = 0
  · rw [loopBody_zero s h]; simp [h]
  · rw [loopBody_nonzero s h]; simp [h]

/-- While every timer check reads a nonzero value, the loop makes no toggle, no
count load and no timer start; the LED2 latch keeps its level and the timers
evolve by ticking alone. -/
theorem mainLoop_of_allPollsNonzero (es : List Env) (s : Periph)
    (h : allPollsNonzero es s = true) :
    (mainLoop es s).timer = (ticks (totalTicks es) s).timer
      ∧ (mainLoop es s).out GPIO_PORT_P2 GPIO_PIN1 = s.out GPIO_PORT_P2 GPIO_PIN1
      ∧ ∃ l : List Op, (mainLoop es s).trace = s.trace ++ l
          ∧ l.length = 3 * es.length
          ∧ ∀ op ∈ l, op.isRearmOrToggle = false := by
  induction es generalizing s with
  | nil => exact ⟨rfl, rfl, [], by simp [mainLoop], rfl, by simp⟩
  | cons e es ih =>
    simp only [allPollsNonzero, Bool.and_eq_true, decide_eq_true_eq] at h
    have hv : ((e.apply s).timer TIMER32_0_BASE).value ≠ 0 := h.1
    obtain ⟨ht, ho, l, hl, hlen, hall⟩ := ih (loopBody (e.apply s)) h.2
    simp only [mainLoop]
    refine ⟨?_, ?_, ?_⟩
    · rw [ht, totalTicks_cons, ticks_add]
      apply ticks_timer_congr
      rw [loopBody_nonzero _ hv]
      rfl
    · rw [ho, loopBody_nonzero _ hv]
      simp [setPin, Env.apply_out]
    · refine ⟨[Op.GPIO_getInputPinValue GPIO_PORT_P1 GPIO_PIN1,
          if e.s1Level = PRESSED then Op.GPIO_setOutputHighOnPin GPIO_PORT_P1 GPIO_PIN0
          else Op.GPIO_setOutputLowOnPin GPIO_PORT_P1 GPIO_PIN0,
          Op.Timer32_getValue TIMER32_0_BASE] ++ l, ?_, ?_, ?_⟩
      · rw [hl, loopBody_nonzero _ hv]
        simp [Env.apply_trace, Env.apply_level]
      · simp [hlen]; ring
      · intro op hop
        simp only [List.cons_append, List.nil_append, List.mem_cons] at hop
        rcases hop with rfl | rfl | rfl | hop
        · rfl
        · split <;> rfl
        · rfl
        · exact hall op hop

/-- A one-shot countdown that is enabled with more ticks left than the
environment supplies reads nonzero at every timer check. -/
theorem allPollsNonzero_of_lt (es : List Env) (s : Periph)
    (hone : (s.timer TIMER32_0_BASE).oneShot = true)
    (hen : (s.timer TIMER32_0_BASE).enabled = true)
    (hlt : totalTicks es < (s.timer TIMER32_0_BASE).value) :
    allPollsNonzero es s = true := by
  induction es generalizing s with
  | nil => rfl
  | cons e es ih =>
    rw [totalTicks_cons] at hlt
    have ht : (e.apply s).timer TIMER32_0_BASE =
        { s.timer TIMER32_0_BASE with value := (s.timer TIMER32_0_BASE).value - e.ticks } := by
      rw [Env.apply_timer, ticks_timer_oneShot _ _ _ hone]; simp [hen]
    have hv : ((e.apply s).timer TIMER32_0_BASE).value ≠ 0 := by
      rw [ht]; simp only; omega
    have hb : (loopBody (e.apply s)).timer TIMER32_0_BASE = (e.apply s).timer TIMER32_0_BASE := by
      rw [loopBody_timer0, if_neg hv]
    simp only [allPollsNonzero, Bool.and_eq_true, decide_eq_true_eq]
    refine ⟨hv, ih _ ?_ ?_ ?_⟩
    · rw [hb, ht]; exact hone
    · rw [hb, ht]; exact hen
    · rw [hb, ht]; simp only; omega

/-- Once Timer32 instance 0 is enabled in one-shot mode it stays so, and the
ticks still to go plus the ticks elapsed never fall below the smaller of the
initial count and the reload value. -/
theorem mainLoop_countdown_bound (es : List Env) (s : Periph)
    (hone : (s.timer TIMER32_0_BASE).oneShot = true)
    (hen : (s.timer TIMER32_0_BASE).enabled = true) :
    ((mainLoop es s).timer TIMER32_0_BASE).oneShot = true
      ∧ ((mainLoop es s).timer TIMER32_0_BASE).enabled = true
      ∧ min (s.timer TIMER32_0_BASE).value ONE_SEC_COUNT ≤
          ((mainLoop es s).timer TIMER32_0_BASE).value + totalTicks es := by
  induction es generalizing s with
  | nil => simp [mainLoop, hone, hen, totalTicks]
  | cons e es ih =>
    have ht : (e.apply s).timer TIMER32_0_BASE =
        { s.timer TIMER32_0_BASE with value := (s.timer TIMER32_0_BASE).value - e.ticks } := by
      rw [Env.apply_timer, ticks_timer_oneShot _ _ _ hone]; simp [hen]
    have hb := loopBody_timer0 (e.apply s)
    simp only [mainLoop, totalTicks_cons]
    by_cases hv : ((e.apply s).timer TIMER32_0_BASE).value = 0
    · rw [if_pos hv] at hb
      obtain ⟨h1, h2, h3⟩ := ih (loopBody (e.apply s)) (by rw [hb]) (by rw [hb])
      refine ⟨h1, h2, ?_⟩
      rw [hb] at h3
      simp only [Nat.min_self] at h3
      have := Nat.min_le_right (s.timer TIMER32_0_BASE).value ONE_SEC_COUNT
      omega
    · rw [if_neg hv] at hb
      obtain ⟨h1, h2, h3⟩ := ih (loopBody (e.apply s)) (by rw [hb, ht]; exact hone)
        (by rw [hb, ht]; exact hen)
      refine ⟨h1, h2, ?_⟩
      rw [hb, ht] at h3
      simp only at h3
      omega

/-- After an iteration that read zero, Timer32 instance 0 holds 3000000 and is
enabled in one-shot mode. -/
theorem loopBody_rearmed (s : Periph) (h : (s.timer TIMER32_0_BASE).value = 0) :
    ((loopBody s).timer TIMER32_0_BASE).value = 3000000
      ∧ ((loopBody s).timer TIMER32_0_BASE).enabled = true
      ∧ ((loopBody s).timer TIMER32_0_BASE).oneShot = true := by
  rw [loopBody_timer0, if_pos h]
  exact ⟨rfl, rfl, rfl⟩

/-- A one-shot countdown that is enabled reads zero at the first timer check
at which the elapsed ticks have reached its count. -/
theorem poll_zero_of_le (es : List Env) (e : Env) (s : Periph)
    (hone : (s.timer TIMER32_0_BASE).oneShot = true)
    (hen : (s.timer TIMER32_0_BASE).enabled = true)
    (hlt : totalTicks es < (s.timer TIMER32_0_BASE).value)
    (hle : (s.timer TIMER32_0_BASE).value ≤ totalTicks es + e.ticks) :
    ((e.apply (mainLoop es s)).timer TIMER32_0_BASE).value = 0 := by
  have hq := (mainLoop_of_allPollsNonzero es s (allPollsNonzero_of_lt es s hone hen hlt)).1
  rw [Env.apply_timer, ticks_timer_congr e.ticks _ _ hq, ← ticks_add,
    ticks_timer_oneShot _ _ _ hone]
  simp only [hen, if_true]
  omega

/-- The state of Timer32 instance 0 on return from the C function `initialize`. -/
theorem initialize_timer0 (s : Periph) :
    (initialize_ s).timer TIMER32_0_BASE =
      { preScaler := TIMER32_PRESCALER_1, resolution := TIMER32_32BIT,
        mode := TIMER32_PERIODIC_MODE, load := 3000000, value := 3000000,
        enabled := true, oneShot := true } := by
  simp [initialize_, Timer32_startTimer, Timer32_setCount, Timer32_initModule,
    GPIO_setAsInputPinWithPullUpResistor, GPIO_setAsOutputPin, WDT_A_hold, logOp,
    ONE_SEC_COUNT]

/-! ## Facts about busy waiting and the cost of a run -/

/-- The busy-wait loop entered at `i` makes `240000 - i` passes and changes
nothing else. -/
theorem busyWait_eq (n i : Nat) (s : Periph) (h : 240000 - i = n) :
    busyWait i s = { s with spins := s.spins + n } := by
  induction n generalizing i s with
  | zero =>
    rw [busyWait, if_neg (by omega)]
    rfl
  | succ n ih =>
    rw [busyWait, if_pos (by omega), ih (i + 1) _ (by omega)]
    simp only [Nat.add_assoc, Nat.add_comm 1 n]

/-- The mirroring statement executes no inner-loop pass. -/
theorem mirrorStep_spins (s : Periph) : (mirrorStep s).spins = s.spins := by
  rw [mirrorStep_eq]

/-- The timer statement executes no inner-loop pass. -/
theorem timerStep_spins (s : Periph) : (timerStep s).spins = s.spins := by
  by_cases h : (s.timer TIMER32_0_BASE).value = 0
  · rw [timerStep_zero s h]
  · rw [timerStep_nonzero s h]

/-- The busy-wait branch executes 240000 inner-loop passes. -/
theorem delayStep_spins (s : Periph) : (delayStep s).spins = s.spins + 240000 := by
  rw [delayStep, busyWait_eq 240000 0 s rfl]
  rfl

/-- The Driverlib calls of one loop iteration. -/
theorem loopBody_trace (s : Periph) :
    (loopBody s).trace = s.trace ++
      ([Op.GPIO_getInputPinValue GPIO_PORT_P1 GPIO_PIN1,
        if s.inp GPIO_PORT_P1 GPIO_PIN1 = PRESSED
        then Op.GPIO_setOutputHighOnPin GPIO_PORT_P1 GPIO_PIN0
        else Op.GPIO_setOutputLowOnPin GPIO_PORT_P1 GPIO_PIN0,
        Op.Timer32_getValue TIMER32_0_BASE]
        ++ (if (s.timer TIMER32_0_BASE).value = 0 then
            [Op.GPIO_toggleOutputOnPin GPIO_PORT_P2 GPIO_PIN1,
             Op.Timer32_setCount TIMER32_0_BASE 3000000,
             Op.Timer32_startTimer TIMER32_0_BASE true]
          else [])) := by
  by_cases hz : (s.timer TIMER32_0_BASE).value = 0
  · rw [loopBody_zero s hz, if_pos hz]; simp [ONE_SEC_COUNT]
  · rw [loopBody_nonzero s hz, if_neg hz]; simp

/-- With the symbol undefined the loop body is the mirroring statement followed
by the busy-wait branch. -/
theorem loopBodyOf_false (s : Periph) : loopBodyOf false s = delayStep (mirrorStep s) := by
  simp only [loopBodyOf, Bool.false_eq_true, if_false]

/-- With the symbol defined the loop body is the compiled body `loopBody`. -/
theorem loopBodyOf_true (s : Periph) : loopBodyOf true s = loopBody s := by
  simp only [loopBodyOf, if_true, loopBody]

/-- The busy-wait variant of the loop body executes 240000 inner-loop passes. -/
theorem loopBodyOf_false_spins (s : Periph) :
    (loopBodyOf false s).spins = s.spins + 240000 := by
  rw [loopBodyOf_false, delayStep_spins, mirrorStep_spins]

/-- The compiled loop body executes no inner-loop pass. -/
theorem loopBody_spins (s : Periph) : (loopBody s).spins = s.spins := by
  rw [loopBody, timerStep_spins, mirrorStep_spins]

theorem Env.apply_spins (e : Env) (s : Periph) : (e.apply s).spins = s.spins := by
  simp only [Env.apply]
  rw [ticks_frame]

/-- Over any run of the loop no inner-loop pass is executed, the button is read
once per iteration, and at most six Driverlib calls are made per iteration. -/
theorem mainLoop_cost (es : List Env) (s : Periph) :
    (mainLoop es s).spins = s.spins
      ∧ ∃ l : List Op, (mainLoop es s).trace = s.trace ++ l
          ∧ l.count (Op.GPIO_getInputPinValue GPIO_PORT_P1 GPIO_PIN1) = es.length
          ∧ l.length ≤ 6 * es.length := by
  induction es generalizing s with
  | nil => exact ⟨rfl, [], by simp [mainLoop], rfl, Nat.le_refl _⟩
  | cons e es ih =>
    obtain ⟨hs, l, hl, hc, hlen⟩ := ih (loopBody (e.apply s))
    simp only [mainLoop]
    refine ⟨?_, ?_⟩
    · rw [hs, loopBody, timerStep_spins, mirrorStep_spins, Env.apply_spins]
    · rw [loopBody_trace, Env.apply_trace, List.append_assoc] at hl
      refine ⟨_, hl, ?_, ?_⟩
      · by_cases hz : ((e.apply s).timer TIMER32_0_BASE).value = 0 <;>
          by_cases hp : (e.apply s).inp GPIO_PORT_P1 GPIO_PIN1 = PRESSED <;>
          simp [hz, hp, hc]
      · by_cases hz : ((e.apply s).timer TIMER32_0_BASE).value = 0 <;>
          simp [hz] <;> omega

/-! ## The claims -/

/-- C1 (expiry branch): in every peripheral state in which
`Timer32_getValue(TIMER32_0_BASE)` reads 0, one loop iteration makes, after the
button read, the LED1 write and the timer read, exactly the calls
toggle P2.1, `Timer32_setCount(TIMER32_0_BASE, 3000000)`,
`Timer32_startTimer(TIMER32_0_BASE, true)`, in that order; LED2 is toggled
exactly once, and afterwards the countdown holds 3000000 with the timer
enabled in one-shot mode, so that the next tick decrements it. -/
theorem C1_expiry_branch (s : Periph)
    (h : (Timer32_getValue TIMER32_0_BASE s).1 = 0) :
    opsOf loopBody s =
        [Op.GPIO_getInputPinValue GPIO_PORT_P1 GPIO_PIN1,
         if s.inp GPIO_PORT_P1 GPIO_PIN1 = PRESSED
         then Op.GPIO_setOutputHighOnPin GPIO_PORT_P1 GPIO_PIN0
         else Op.GPIO_setOutputLowOnPin GPIO_PORT_P1 GPIO_PIN0,
         Op.Timer32_getValue TIMER32_0_BASE,
         Op.GPIO_toggleOutputOnPin GPIO_PORT_P2 GPIO_PIN1,
         Op.Timer32_setCount TIMER32_0_BASE 3000000,
         Op.Timer32_startTimer TIMER32_0_BASE true]
      ∧ opsOf timerStep (mirrorStep s) =
        [Op.Timer32_getValue TIMER32_0_BASE,
         Op.GPIO_toggleOutputOnPin GPIO_PORT_P2 GPIO_PIN1,
         Op.Timer32_setCount TIMER32_0_BASE 3000000,
         Op.Timer32_startTimer TIMER32_0_BASE true]
      ∧ (opsOf loopBody s).count (Op.GPIO_toggleOutputOnPin GPIO_PORT_P2 GPIO_PIN1) = 1
      ∧ (loopBody s).out GPIO_PORT_P2 GPIO_PIN1 = !(s.out GPIO_PORT_P2 GPIO_PIN1)
      ∧ ((loopBody s).timer TIMER32_0_BASE).value = 3000000
      ∧ ((loopBody s).timer TIMER32_0_BASE).enabled = true
      ∧ ((loopBody s).timer TIMER32_0_BASE).oneShot = true
      ∧ ((tick (loopBody s)).timer TIMER32_0_BASE).value = 2999999 := by
  have h0 : (s.timer TIMER32_0_BASE).value = 0 := h
  have hm : ((mirrorStep s).timer TIMER32_0_BASE).value = 0 := by
    rw [mirrorStep_eq]; exact h0
  refine ⟨?_, ?_, ?_, ?_, ?_, ?_, ?_, ?_⟩
  · simp [opsOf, loopBody_zero s h0, ONE_SEC_COUNT]
  · simp [opsOf, timerStep_zero _ hm, ONE_SEC_COUNT]
  · by_cases hp : s.inp GPIO_PORT_P1 GPIO_PIN1 = PRESSED <;>
      simp [opsOf, loopBody_zero s h0, hp]
  · simp [loopBody_zero s h0]
  · simp [loopBody_zero s h0, ONE_SEC_COUNT]
  · simp [loopBody_zero s h0]
  · simp [loopBody_zero s h0]
  · simp [loopBody_zero s h0, tick, Timer32State.tick, ONE_SEC_COUNT]

/-- Concrete instance of C1 at `expiredState`. -/
theorem C1_expiry_branch_witness :
    (Timer32_getValue TIMER32_0_BASE expiredState).1 = 0
      ∧ (opsOf loopBody expiredState).count
          (Op.GPIO_toggleOutputOnPin GPIO_PORT_P2 GPIO_PIN1) = 1
      ∧ ((loopBody expiredState).timer TIMER32_0_BASE).value = 3000000 :=
  ⟨rfl, (C1_expiry_branch expiredState rfl).2.2.1,
    (C1_expiry_branch expiredState rfl).2.2.2.2.1⟩

/-- With no tick in between and a nonzero countdown, any number of loop
iterations (the button taking any level before each) only appends calls that
are neither toggle nor count load nor timer start, and leaves the timers and
every output latch other than LED1 alone. -/
theorem mainLoop_no_tick (levels : List Nat) (s : Periph)
    (h : (s.timer TIMER32_0_BASE).value ≠ 0) :
    (mainLoop (levels.map (fun b => { ticks := 0, s1Level := b })) s).timer = s.timer
      ∧ (mainLoop (levels.map (fun b => { ticks := 0, s1Level := b })) s).out
          GPIO_PORT_P2 GPIO_PIN1 = s.out GPIO_PORT_P2 GPIO_PIN1
      ∧ ∃ l : List Op,
          (mainLoop (levels.map (fun b => { ticks := 0, s1Level := b })) s).trace
            = s.trace ++ l
          ∧ l.length = 3 * levels.length
          ∧ ∀ op ∈ l, op.isRearmOrToggle = false := by
  induction levels generalizing s with
  | nil => exact ⟨rfl, rfl, [], by simp [mainLoop], rfl, by simp⟩
  | cons b bs ih =>
    have hv : (((Env.mk 0 b).apply s).timer TIMER32_0_BASE).value ≠ 0 := by
      simpa [Env.apply, ticks] using h
    obtain ⟨ht, ho, l, hl, hlen, hall⟩ := ih (loopBody ((Env.mk 0 b).apply s))
      (by rw [loopBody_nonzero _ hv]; exact hv)
    simp only [List.map_cons, mainLoop]
    refine ⟨?_, ?_, ?_⟩
    · rw [ht, loopBody_nonzero _ hv]; simp [Env.apply, ticks]
    · rw [ho, loopBody_nonzero _ hv]; simp [Env.apply, ticks, setPin]
    · refine ⟨[Op.GPIO_getInputPinValue GPIO_PORT_P1 GPIO_PIN1,
          if b = PRESSED then Op.GPIO_setOutputHighOnPin GPIO_PORT_P1 GPIO_PIN0
          else Op.GPIO_setOutputLowOnPin GPIO_PORT_P1 GPIO_PIN0,
          Op.Timer32_getValue TIMER32_0_BASE] ++ l, ?_, ?_, ?_⟩
      · rw [hl, loopBody_nonzero _ hv]
        simp [Env.apply, ticks]
      · simp [hlen]; ring
      · intro op hop
        simp only [List.cons_append, List.nil_append, List.mem_cons] at hop
        rcases hop with rfl | rfl | rfl | hop
        · rfl
        · split <;> rfl
        · rfl
        · exact hall op hop

/-- C2 (re-arm idempotence under fast polling): in every peripheral state in
which `Timer32_getValue(TIMER32_0_BASE)` reads a nonzero value, one loop
iteration makes only the button read, the LED1 write and the timer read; it
makes no toggle, no `Timer32_setCount` and no `Timer32_startTimer`, and leaves
every timer register and the LED2 latch unchanged.  The same holds for any
number of consecutive iterations with no tick in between, whatever the button
does. -/
theorem C2_not_due_frame (s : Periph)
    (h : (Timer32_getValue TIMER32_0_BASE s).1 ≠ 0) :
    opsOf loopBody s =
        [Op.GPIO_getInputPinValue GPIO_PORT_P1 GPIO_PIN1,
         if s.inp GPIO_PORT_P1 GPIO_PIN1 = PRESSED
         then Op.GPIO_setOutputHighOnPin GPIO_PORT_P1 GPIO_PIN0
         else Op.GPIO_setOutputLowOnPin GPIO_PORT_P1 GPIO_PIN0,
         Op.Timer32_getValue TIMER32_0_BASE]
      ∧ (∀ op ∈ opsOf loopBody s, op.isRearmOrToggle = false)
      ∧ (loopBody s).timer = s.timer
      ∧ (loopBody s).out GPIO_PORT_P2 GPIO_PIN1 = s.out GPIO_PORT_P2 GPIO_PIN1
      ∧ ∀ levels : List Nat,
          (mainLoop (levels.map (fun b => { ticks := 0, s1Level := b })) s).timer = s.timer
          ∧ (mainLoop (levels.map (fun b => { ticks := 0, s1Level := b })) s).out
              GPIO_PORT_P2 GPIO_PIN1 = s.out GPIO_PORT_P2 GPIO_PIN1
          ∧ (opsOf (mainLoop (levels.map (fun b => { ticks := 0, s1Level := b }))) s).length
              = 3 * levels.length
          ∧ ∀ op ∈ opsOf (mainLoop (levels.map (fun b => { ticks := 0, s1Level := b }))) s,
              op.isRearmOrToggle = false := by
  have h0 : (s.timer TIMER32_0_BASE).value ≠ 0 := h
  have hops : opsOf loopBody s =
        [Op.GPIO_getInputPinValue GPIO_PORT_P1 GPIO_PIN1,
         if s.inp GPIO_PORT_P1 GPIO_PIN1 = PRESSED
         then Op.GPIO_setOutputHighOnPin GPIO_PORT_P1 GPIO_PIN0
         else Op.GPIO_setOutputLowOnPin GPIO_PORT_P1 GPIO_PIN0,
         Op.Timer32_getValue TIMER32_0_BASE] := by
    simp [opsOf, loopBody_nonzero s h0]
  refine ⟨hops, ?_, ?_, ?_, ?_⟩
  · intro op hop
    rw [hops] at hop
    simp only [List.mem_cons, List.mem_singleton, List.not_mem_nil, or_false] at hop
    rcases hop with rfl | rfl | rfl
    · rfl
    · split <;> rfl
    · rfl
  · rw [loopBody_nonzero s h0]
  · rw [loopBody_nonzero s h0]; simp [setPin]
  · intro levels
    obtain ⟨ht, ho, l, hl, hlen, hall⟩ := mainLoop_no_tick levels s h0
    have hd : opsOf (mainLoop (levels.map (fun b => { ticks := 0, s1Level := b }))) s = l := by
      simp [opsOf, hl]
    exact ⟨ht, ho, by rw [hd, hlen], by rw [hd]; exact hall⟩

/-- Concrete instance of C2 at `countingState`. -/
theorem C2_not_due_frame_witness :
    (Timer32_getValue TIMER32_0_BASE countingState).1 ≠ 0
      ∧ (loopBody countingState).timer = countingState.timer
      ∧ (loopBody countingState).out GPIO_PORT_P2 GPIO_PIN1 = false :=
  ⟨by decide, (C2_not_due_frame countingState (by decide)).2.2.1,
    (C2_not_due_frame countingState (by decide)).2.2.2.1⟩

/-- C3 (mirroring correctness): after one loop iteration LED1 (P1.0) is high
exactly when the level read from P1.1 equals `PRESSED = 0` and low otherwise,
for every prior state; `S1isPressed` is nonzero exactly when the pin reads 0;
`TurnOn_Launchpad_LED1` is called exactly when it is nonzero and
`TurnOff_Launchpad_LED1` exactly when it is zero, one LED1 write per
iteration; and the LED1 level after the iteration depends on the current input
level only. -/
theorem C3_mirroring (s : Periph) :
    ((loopBody s).out GPIO_PORT_P1 GPIO_PIN0 = true ↔ s.inp GPIO_PORT_P1 GPIO_PIN1 = PRESSED)
      ∧ ((loopBody s).out GPIO_PORT_P1 GPIO_PIN0 = false ↔
          s.inp GPIO_PORT_P1 GPIO_PIN1 ≠ PRESSED)
      ∧ ((S1isPressed s).1 ≠ 0 ↔
          (GPIO_getInputPinValue GPIO_PORT_P1 GPIO_PIN1 s).1 = 0)
      ∧ (Op.GPIO_setOutputHighOnPin GPIO_PORT_P1 GPIO_PIN0 ∈ opsOf loopBody s ↔
          (S1isPressed s).1 ≠ 0)
      ∧ (Op.GPIO_setOutputLowOnPin GPIO_PORT_P1 GPIO_PIN0 ∈ opsOf loopBody s ↔
          (S1isPressed s).1 = 0)
      ∧ (opsOf loopBody s).count (Op.GPIO_setOutputHighOnPin GPIO_PORT_P1 GPIO_PIN0)
          + (opsOf loopBody s).count (Op.GPIO_setOutputLowOnPin GPIO_PORT_P1 GPIO_PIN0) = 1
      ∧ ∀ s2 : Periph, s2.inp GPIO_PORT_P1 GPIO_PIN1 = s.inp GPIO_PORT_P1 GPIO_PIN1 →
          (loopBody s2).out GPIO_PORT_P1 GPIO_PIN0 = (loopBody s).out GPIO_PORT_P1 GPIO_PIN0 := by
  have hS : (S1isPressed s).1 = if s.inp GPIO_PORT_P1 GPIO_PIN1 = PRESSED then 1 else 0 := rfl
  refine ⟨?_, ?_, ?_, ?_, ?_, ?_, ?_⟩
  · rw [loopBody_led1]; simp
  · rw [loopBody_led1]; simp
  · rw [hS]
    show _ ↔ s.inp GPIO_PORT_P1 GPIO_PIN1 = 0
    by_cases hp : s.inp GPIO_PORT_P1 GPIO_PIN1 = 0 <;> simp [hp, PRESSED]
  · rw [hS]
    by_cases hp : s.inp GPIO_PORT_P1 GPIO_PIN1 = PRESSED <;>
      by_cases hz : (s.timer TIMER32_0_BASE).value = 0 <;>
      simp [opsOf, loopBody_zero, loopBody_nonzero, hp, hz]
  · rw [hS]
    by_cases hp : s.inp GPIO_PORT_P1 GPIO_PIN1 = PRESSED <;>
      by_cases hz : (s.timer TIMER32_0_BASE).value = 0 <;>
      simp [opsOf, loopBody_zero, loopBody_nonzero, hp, hz]
  · by_cases hp : s.inp GPIO_PORT_P1 GPIO_PIN1 = PRESSED <;>
      by_cases hz : (s.timer TIMER32_0_BASE).value = 0 <;>
      simp [opsOf, loopBody_zero, loopBody_nonzero, hp, hz]
  · intro s2 h2
    rw [loopBody_led1, loopBody_led1, h2]

/-- C4 (no missed firing): take a one-shot countdown that is running, or
already at zero.  Let it reach zero (`value` ticks) and let any number `d` of
further ticks elapse before the next loop iteration.  That iteration still
reads 0, toggles LED2 exactly once and re-arms exactly once (one
`Timer32_setCount` with 3000000, one one-shot `Timer32_startTimer`), and
afterwards the countdown holds 3000000 and is enabled in one-shot mode. -/
theorem C4_no_missed_firing (s : Periph) (d : Nat)
    (hone : (s.timer TIMER32_0_BASE).oneShot = true)
    (hrun : (s.timer TIMER32_0_BASE).enabled = true ∨ (s.timer TIMER32_0_BASE).value = 0) :
    (Timer32_getValue TIMER32_0_BASE
        (ticks ((s.timer TIMER32_0_BASE).value + d) s)).1 = 0
      ∧ opsOf loopBody (ticks ((s.timer TIMER32_0_BASE).value + d) s) =
        [Op.GPIO_getInputPinValue GPIO_PORT_P1 GPIO_PIN1,
         if s.inp GPIO_PORT_P1 GPIO_PIN1 = PRESSED
         then Op.GPIO_setOutputHighOnPin GPIO_PORT_P1 GPIO_PIN0
         else Op.GPIO_setOutputLowOnPin GPIO_PORT_P1 GPIO_PIN0,
         Op.Timer32_getValue TIMER32_0_BASE,
         Op.GPIO_toggleOutputOnPin GPIO_PORT_P2 GPIO_PIN1,
         Op.Timer32_setCount TIMER32_0_BASE 3000000,
         Op.Timer32_startTimer TIMER32_0_BASE true]
      ∧ ((opsOf loopBody (ticks ((s.timer TIMER32_0_BASE).value + d) s)).filter
          Op.isRearmOrToggle) =
        [Op.GPIO_toggleOutputOnPin GPIO_PORT_P2 GPIO_PIN1,
         Op.Timer32_setCount TIMER32_0_BASE 3000000,
         Op.Timer32_startTimer TIMER32_0_BASE true]
      ∧ (loopBody (ticks ((s.timer TIMER32_0_BASE).value + d) s)).out
          GPIO_PORT_P2 GPIO_PIN1 = !(s.out GPIO_PORT_P2 GPIO_PIN1)
      ∧ ((loopBody (ticks ((s.timer TIMER32_0_BASE).value + d) s)).timer
          TIMER32_0_BASE).value = 3000000
      ∧ ((loopBody (ticks ((s.timer TIMER32_0_BASE).value + d) s)).timer
          TIMER32_0_BASE).enabled = true
      ∧ ((loopBody (ticks ((s.timer TIMER32_0_BASE).value + d) s)).timer
          TIMER32_0_BASE).oneShot = true := by
  have hz : ((ticks ((s.timer TIMER32_0_BASE).value + d) s).timer TIMER32_0_BASE).value = 0 := by
    rw [ticks_timer_oneShot _ _ _ hone]
    rcases hrun with he | hv
    · simp [he]
    · split <;> simp [hv]
  have hinp : (ticks ((s.timer TIMER32_0_BASE).value + d) s).inp = s.inp := by
    rw [ticks_frame]
  have hops : opsOf loopBody (ticks ((s.timer TIMER32_0_BASE).value + d) s) =
        [Op.GPIO_getInputPinValue GPIO_PORT_P1 GPIO_PIN1,
         if s.inp GPIO_PORT_P1 GPIO_PIN1 = PRESSED
         then Op.GPIO_setOutputHighOnPin GPIO_PORT_P1 GPIO_PIN0
         else Op.GPIO_setOutputLowOnPin GPIO_PORT_P1 GPIO_PIN0,
         Op.Timer32_getValue TIMER32_0_BASE,
         Op.GPIO_toggleOutputOnPin GPIO_PORT_P2 GPIO_PIN1,
         Op.Timer32_setCount TIMER32_0_BASE 3000000,
         Op.Timer32_startTimer TIMER32_0_BASE true] := by
    simp [opsOf, loopBody_zero _ hz, hinp, ONE_SEC_COUNT]
  refine ⟨hz, hops, ?_, ?_, ?_, ?_, ?_⟩
  · rw [hops]
    by_cases hp : s.inp GPIO_PORT_P1 GPIO_PIN1 = PRESSED <;>
      simp [List.filter, Op.isRearmOrToggle, hp]
  · simp [loopBody_zero _ hz, ticks_out]
  · simp [loopBody_zero _ hz, ONE_SEC_COUNT]
  · simp [loopBody_zero _ hz]
  · simp [loopBody_zero _ hz]

/-- Concrete instance of C4: from `countingState` (value 7), after 7 + 5 ticks
the next iteration fires. -/
theorem C4_no_missed_firing_witness :
    (countingState.timer TIMER32_0_BASE).oneShot = true
      ∧ ((countingState.timer TIMER32_0_BASE).enabled = true
          ∨ (countingState.timer TIMER32_0_BASE).value = 0)
      ∧ (Timer32_getValue TIMER32_0_BASE (ticks (7 + 5) countingState)).1 = 0
      ∧ (loopBody (ticks (7 + 5) countingState)).out GPIO_PORT_P2 GPIO_PIN1 = true :=
  ⟨rfl, Or.inl rfl, (C4_no_missed_firing countingState 5 rfl (Or.inl rfl)).1,
    (C4_no_missed_firing countingState 5 rfl (Or.inl rfl)).2.2.2.1⟩

/-- C5 (expiry monotonicity): take any iteration that fires (the countdown
reads 0 in `s`) and any later iteration that fires, after an arbitrary
sequence `es` of environment steps and iterations and a last environment step
`e`.  The first one reloaded the countdown to 3000000, and at least 3000000
ticks elapsed between the two; so two iterations with fewer than 3000000 ticks
between them cannot both fire. -/
theorem C5_expiry_monotonicity (s : Periph) (es : List Env) (e : Env)
    (hfire1 : (Timer32_getValue TIMER32_0_BASE s).1 = 0)
    (hfire2 : (Timer32_getValue TIMER32_0_BASE
      (e.apply (mainLoop es (loopBody s)))).1 = 0) :
    ((loopBody s).timer TIMER32_0_BASE).value = 3000000
      ∧ 3000000 ≤ totalTicks (es ++ [e]) := by
  have h0 : (s.timer TIMER32_0_BASE).value = 0 := hfire1
  have hb : (loopBody s).timer TIMER32_0_BASE =
      { s.timer TIMER32_0_BASE with
        load := ONE_SEC_COUNT, value := ONE_SEC_COUNT, enabled := true, oneShot := true } := by
    rw [loopBody_timer0, if_pos h0]
  obtain ⟨h1, h2, h3⟩ := mainLoop_countdown_bound es (loopBody s) (by rw [hb]) (by rw [hb])
  have h4 : ((e.apply (mainLoop es (loopBody s))).timer TIMER32_0_BASE).value = 0 := hfire2
  rw [Env.apply_timer, ticks_timer_oneShot _ _ _ h1] at h4
  simp only [h2, if_true] at h4
  rw [hb] at h3
  simp only [Nat.min_self, ONE_SEC_COUNT] at h3
  refine ⟨by rw [hb]; rfl, ?_⟩
  rw [totalTicks_append]
  omega

/-- Concrete instance of C5: a firing at `expiredState`, then iterations after
1000000 and after 2000000 further ticks, the second of which fires. -/
theorem C5_expiry_monotonicity_witness :
    (Timer32_getValue TIMER32_0_BASE expiredState).1 = 0
      ∧ (Timer32_getValue TIMER32_0_BASE
          ((Env.mk 2000000 0).apply (mainLoop [Env.mk 1000000 1] (loopBody expiredState)))).1 = 0
      ∧ 3000000 ≤ totalTicks ([Env.mk 1000000 1] ++ [Env.mk 2000000 0]) :=
  have h2 : (Timer32_getValue TIMER32_0_BASE
      ((Env.mk 2000000 0).apply (mainLoop [Env.mk 1000000 1] (loopBody expiredState)))).1 = 0 :=
    (getValue_fst _ _).trans
      (poll_zero_of_le [Env.mk 1000000 1] (Env.mk 2000000 0) (loopBody expiredState)
        (loopBody_rearmed expiredState rfl).2.2 (loopBody_rearmed expiredState rfl).2.1
        (by rw [(loopBody_rearmed expiredState rfl).1]; simp [totalTicks])
        (by rw [(loopBody_rearmed expiredState rfl).1]; simp [totalTicks]))
  ⟨rfl, h2, (C5_expiry_monotonicity expiredState [Env.mk 1000000 1] (Env.mk 2000000 0) rfl h2).2⟩

/-- C6 (scenario, normal periodic toggle): start from the state the C
function `initialize` produces, from any power-on state `s0`, and run
`N = es.length + 1` iterations.  If the countdown reads nonzero at each of the
first `N - 1` timer checks and zero at the `N`-th, then the first `N - 1`
iterations make no toggle, no count load and no timer start, leave the LED2
latch at its level and let the timers evolve by ticking alone; iteration `N`
toggles LED2 exactly once, and immediately after it the countdown holds
3000000 again with the timer enabled in one-shot mode, so that the next tick
decrements it. -/
theorem C6_periodic_scenario (s0 : Periph) (es : List Env) (e : Env)
    (hpre : allPollsNonzero es (initialize_ s0) = true)
    (hN : (Timer32_getValue TIMER32_0_BASE (e.apply (main es s0))).1 = 0) :
    (∀ op ∈ opsOf (mainLoop es) (initialize_ s0), op.isRearmOrToggle = false)
      ∧ (main es s0).out GPIO_PORT_P2 GPIO_PIN1 = (initialize_ s0).out GPIO_PORT_P2 GPIO_PIN1
      ∧ (main es s0).timer = (ticks (totalTicks es) (initialize_ s0)).timer
      ∧ (opsOf loopBody (e.apply (main es s0))).filter Op.isRearmOrToggle =
          [Op.GPIO_toggleOutputOnPin GPIO_PORT_P2 GPIO_PIN1,
           Op.Timer32_setCount TIMER32_0_BASE 3000000,
           Op.Timer32_startTimer TIMER32_0_BASE true]
      ∧ (main (es ++ [e]) s0).out GPIO_PORT_P2 GPIO_PIN1 =
          !((initialize_ s0).out GPIO_PORT_P2 GPIO_PIN1)
      ∧ ((main (es ++ [e]) s0).timer TIMER32_0_BASE).value = 3000000
      ∧ ((main (es ++ [e]) s0).timer TIMER32_0_BASE).enabled = true
      ∧ ((main (es ++ [e]) s0).timer TIMER32_0_BASE).oneShot = true
      ∧ ((tick (main (es ++ [e]) s0)).timer TIMER32_0_BASE).value = 2999999 := by
  obtain ⟨ht, ho, l, hl, _, hall⟩ := mainLoop_of_allPollsNonzero es (initialize_ s0) hpre
  have hz : ((e.apply (main es s0)).timer TIMER32_0_BASE).value = 0 := hN
  have hlast : main (es ++ [e]) s0 = loopBody (e.apply (main es s0)) :=
    mainLoop_append es e (initialize_ s0)
  have hre := loopBody_rearmed _ hz
  refine ⟨?_, ho, ht, ?_, ?_, ?_, ?_, ?_, ?_⟩
  · have hd : opsOf (mainLoop es) (initialize_ s0) = l := by simp [opsOf, hl]
    rw [hd]; exact hall
  · by_cases hp : (e.apply (main es s0)).inp GPIO_PORT_P1 GPIO_PIN1 = PRESSED <;>
      simp [opsOf, loopBody_zero _ hz, List.filter, Op.isRearmOrToggle, hp, ONE_SEC_COUNT]
  · rw [hlast, loopBody_zero _ hz]
    simp only [setPin_same, Env.apply_out]
    exact congrArg _ ho
  · rw [hlast]; exact hre.1
  · rw [hlast]; exact hre.2.1
  · rw [hlast]; exact hre.2.2
  · rw [hlast]
    show ((loopBody (e.apply (main es s0))).timer TIMER32_0_BASE).tick.value = 2999999
    rw [loopBody_timer0, if_pos hz]
    simp [Timer32State.tick, ONE_SEC_COUNT]

/-- Concrete instance of C6 with `N = 3`: from `resetState`, iterations after
1000000, 2000000 and 3000000 ticks; the third one fires. -/
theorem C6_periodic_scenario_witness :
    allPollsNonzero [Env.mk 1000000 1, Env.mk 1000000 0] (initialize_ resetState) = true
      ∧ (Timer32_getValue TIMER32_0_BASE
          ((Env.mk 1000000 1).apply
            (main [Env.mk 1000000 1, Env.mk 1000000 0] resetState))).1 = 0
      ∧ ((main ([Env.mk 1000000 1, Env.mk 1000000 0] ++ [Env.mk 1000000 1])
          resetState).timer TIMER32_0_BASE).value = 3000000 :=
  have h1 : allPollsNonzero [Env.mk 1000000 1, Env.mk 1000000 0] (initialize_ resetState)
      = true :=
    allPollsNonzero_of_lt _ _ (by rw [initialize_timer0]) (by rw [initialize_timer0])
      (by rw [initialize_timer0]; simp [totalTicks])
  have h2 : (Timer32_getValue TIMER32_0_BASE
      ((Env.mk 1000000 1).apply
        (main [Env.mk 1000000 1, Env.mk 1000000 0] resetState))).1 = 0 := by
    rw [getValue_fst, main]
    exact poll_zero_of_le [Env.mk 1000000 1, Env.mk 1000000 0] (Env.mk 1000000 1)
      (initialize_ resetState) (by rw [initialize_timer0]) (by rw [initialize_timer0])
      (by rw [initialize_timer0]; simp [totalTicks])
      (by rw [initialize_timer0]; simp [totalTicks])
  ⟨h1, h2, (C6_periodic_scenario resetState [Env.mk 1000000 1, Env.mk 1000000 0]
    (Env.mk 1000000 1) h1 h2).2.2.2.2.2.1⟩

/-- C7: the C function `initialize` makes, in this order, the calls
`WDT_A_hold`, P1.0 as output, P2.1 as output, P1.1 as input with pull-up,
`Timer32_initModule(TIMER32_0_BASE, prescaler 1, 32-bit, periodic)`,
`Timer32_setCount(TIMER32_0_BASE, 3000000)` and
`Timer32_startTimer(TIMER32_0_BASE, true)`.  On return, from every state, the
watchdog is held, the pins are configured, and the countdown holds 3000000
(nonzero, so not expired) and is enabled in one-shot mode, so that the next
tick decrements it.  The function is total: it has no error path. -/
theorem C7_initialize_counting (s : Periph) :
    opsOf initialize_ s =
        [Op.WDT_A_hold WDT_A_BASE,
         Op.GPIO_setAsOutputPin GPIO_PORT_P1 GPIO_PIN0,
         Op.GPIO_setAsOutputPin GPIO_PORT_P2 GPIO_PIN1,
         Op.GPIO_setAsInputPinWithPullUpResistor GPIO_PORT_P1 GPIO_PIN1,
         Op.Timer32_initModule TIMER32_0_BASE TIMER32_PRESCALER_1 TIMER32_32BIT
           TIMER32_PERIODIC_MODE,
         Op.Timer32_setCount TIMER32_0_BASE 3000000,
         Op.Timer32_startTimer TIMER32_0_BASE true]
      ∧ (initialize_ s).timer TIMER32_0_BASE =
        { preScaler := TIMER32_PRESCALER_1, resolution := TIMER32_32BIT,
          mode := TIMER32_PERIODIC_MODE, load := 3000000, value := 3000000,
          enabled := true, oneShot := true }
      ∧ (Timer32_getValue TIMER32_0_BASE (initialize_ s)).1 = 3000000
      ∧ (Timer32_getValue TIMER32_0_BASE (initialize_ s)).1 ≠ 0
      ∧ ((tick (initialize_ s)).timer TIMER32_0_BASE).value = 2999999
      ∧ (initialize_ s).wdtHeld = true
      ∧ (initialize_ s).dirOut GPIO_PORT_P1 GPIO_PIN0 = true
      ∧ (initialize_ s).dirOut GPIO_PORT_P2 GPIO_PIN1 = true
      ∧ (initialize_ s).dirOut GPIO_PORT_P1 GPIO_PIN1 = false
      ∧ (initialize_ s).pullUp GPIO_PORT_P1 GPIO_PIN1 = true
      ∧ (initialize_ s).out = s.out := by
  have ht := initialize_timer0 s
  refine ⟨?_, ht, ?_, ?_, ?_, ?_, ?_, ?_, ?_, ?_, ?_⟩
  · simp [opsOf, initialize_, Timer32_startTimer, Timer32_setCount, Timer32_initModule,
      GPIO_setAsInputPinWithPullUpResistor, GPIO_setAsOutputPin, WDT_A_hold, logOp,
      ONE_SEC_COUNT]
  · rw [getValue_fst, ht]
  · rw [getValue_fst, ht]; decide
  · show ((initialize_ s).timer TIMER32_0_BASE).tick.value = 2999999
    rw [ht]; rfl
  · rfl
  · simp [initialize_, Timer32_startTimer, Timer32_setCount, Timer32_initModule,
      GPIO_setAsInputPinWithPullUpResistor, GPIO_setAsOutputPin, WDT_A_hold, logOp, setPin]
  · simp [initialize_, Timer32_startTimer, Timer32_setCount, Timer32_initModule,
      GPIO_setAsInputPinWithPullUpResistor, GPIO_setAsOutputPin, WDT_A_hold, logOp, setPin]
  · simp [initialize_, Timer32_startTimer, Timer32_setCount, Timer32_initModule,
      GPIO_setAsInputPinWithPullUpResistor, GPIO_setAsOutputPin, WDT_A_hold, logOp, setPin]
  · simp [initialize_, Timer32_startTimer, Timer32_setCount, Timer32_initModule,
      GPIO_setAsInputPinWithPullUpResistor, GPIO_setAsOutputPin, WDT_A_hold, logOp, setPin]
  · rfl

/-- C8 (disjoint ownership): the mirroring statement calls only the read of
P1.1 and the two writes of P1.0, leaves every timer and every output latch
other than P1.0 (LED2 included) unchanged, and the LED1 level it produces
depends on the level of P1.1 only.  The timer statement calls only
`Timer32_getValue`, the toggle of P2.1, `Timer32_setCount` and
`Timer32_startTimer`, leaves every output latch other than P2.1 (LED1
included) and every input level unchanged, and the timers it produces depend
on the timers only.  Hence after one loop iteration the LED1 level is the same
for all timer states and the timer state is the same for all button levels. -/
theorem C8_disjoint_ownership (s : Periph) :
    (∀ op ∈ opsOf mirrorStep s,
        op = Op.GPIO_getInputPinValue GPIO_PORT_P1 GPIO_PIN1
          ∨ op = Op.GPIO_setOutputHighOnPin GPIO_PORT_P1 GPIO_PIN0
          ∨ op = Op.GPIO_setOutputLowOnPin GPIO_PORT_P1 GPIO_PIN0)
      ∧ (mirrorStep s).timer = s.timer
      ∧ (∀ p q, ¬(p = GPIO_PORT_P1 ∧ q = GPIO_PIN0) → (mirrorStep s).out p q = s.out p q)
      ∧ (mirrorStep s).out GPIO_PORT_P2 GPIO_PIN1 = s.out GPIO_PORT_P2 GPIO_PIN1
      ∧ (∀ u : Periph, u.inp GPIO_PORT_P1 GPIO_PIN1 = s.inp GPIO_PORT_P1 GPIO_PIN1 →
          (mirrorStep u).out GPIO_PORT_P1 GPIO_PIN0 = (mirrorStep s).out GPIO_PORT_P1 GPIO_PIN0)
      ∧ (∀ op ∈ opsOf timerStep s,
          op = Op.Timer32_getValue TIMER32_0_BASE
            ∨ op = Op.GPIO_toggleOutputOnPin GPIO_PORT_P2 GPIO_PIN1
            ∨ op = Op.Timer32_setCount TIMER32_0_BASE 3000000
            ∨ op = Op.Timer32_startTimer TIMER32_0_BASE true)
      ∧ (∀ p q, ¬(p = GPIO_PORT_P2 ∧ q = GPIO_PIN1) → (timerStep s).out p q = s.out p q)
      ∧ (timerStep s).out GPIO_PORT_P1 GPIO_PIN0 = s.out GPIO_PORT_P1 GPIO_PIN0
      ∧ (timerStep s).inp = s.inp
      ∧ (∀ u : Periph, u.timer = s.timer → (timerStep u).timer = (timerStep s).timer)
      ∧ (∀ u : Periph, u.inp GPIO_PORT_P1 GPIO_PIN1 = s.inp GPIO_PORT_P1 GPIO_PIN1 →
          (loopBody u).out GPIO_PORT_P1 GPIO_PIN0 = (loopBody s).out GPIO_PORT_P1 GPIO_PIN0)
      ∧ (∀ u : Periph, u.timer = s.timer → (loopBody u).timer = (loopBody s).timer) := by
  have htimer : ∀ a u : Periph, u.timer = a.timer → (timerStep u).timer = (timerStep a).timer := by
    intro a u hu
    by_cases hz : (a.timer TIMER32_0_BASE).value = 0
    · rw [timerStep_zero a hz, timerStep_zero u (by rw [hu]; exact hz)]
      simp only [hu]
    · rw [timerStep_nonzero a hz, timerStep_nonzero u (by rw [hu]; exact hz)]
      exact hu
  refine ⟨?_, ?_, ?_, ?_, ?_, ?_, ?_, ?_, ?_, ?_, ?_, ?_⟩
  · intro op hop
    rw [opsOf, mirrorStep_eq] at hop
    simp only [List.drop_left, List.mem_cons, List.mem_singleton, List.not_mem_nil,
      or_false] at hop
    rcases hop with rfl | rfl
    · exact Or.inl rfl
    · split
      · exact Or.inr (Or.inl rfl)
      · exact Or.inr (Or.inr rfl)
  · rw [mirrorStep_eq]
  · intro p q hpq
    rw [mirrorStep_eq]
    exact setPin_other _ _ _ _ _ _ hpq
  · rw [mirrorStep_eq]
    simp [setPin]
  · intro u hu
    rw [mirrorStep_eq, mirrorStep_eq]
    simp only [setPin_same, hu]
  · intro op hop
    by_cases hz : (s.timer TIMER32_0_BASE).value = 0
    · rw [opsOf, timerStep_zero s hz] at hop
      simpa [ONE_SEC_COUNT] using hop
    · rw [opsOf, timerStep_nonzero s hz] at hop
      simp only [List.drop_left, List.mem_singleton] at hop
      exact Or.inl hop
  · intro p q hpq
    by_cases hz : (s.timer TIMER32_0_BASE).value = 0
    · rw [timerStep_zero s hz]
      exact setPin_other _ _ _ _ _ _ hpq
    · rw [timerStep_nonzero s hz]
  · by_cases hz : (s.timer TIMER32_0_BASE).value = 0
    · rw [timerStep_zero s hz]
      simp [setPin]
    · rw [timerStep_nonzero s hz]
  · by_cases hz : (s.timer TIMER32_0_BASE).value = 0
    · rw [timerStep_zero s hz]
    · rw [timerStep_nonzero s hz]
  · exact htimer s
  · intro u hu
    rw [loopBody_led1, loopBody_led1, hu]
  · intro u hu
    unfold loopBody
    apply htimer
    rw [mirrorStep_eq, mirrorStep_eq]
    exact hu

/-- C9 (the timer-driven loop body never blocks): with `Timer32` defined, as
line 19 does, the loop body of lines 61-87 is the mirroring statement followed
by the timer statement, and from every state one iteration executes no pass of
any inner loop (no busy wait) and makes these Driverlib calls and no others:
one read of P1.1, one write of LED1, one read of the countdown, and then
nothing more when the countdown is nonzero, or one LED2 toggle, one
`Timer32_setCount` and one `Timer32_startTimer` when it is zero; at most six
calls in all.  Over any run, whatever the timer and the button do, still no
inner-loop pass is executed and the button is read once in every iteration.
The busy-wait alternative of lines 82-85, by contrast, executes 240000
inner-loop passes in every iteration. -/
theorem C9_iteration_bounded (s : Periph) :
    Timer32 = true
      ∧ loopBodyOf Timer32 s = loopBody s
      ∧ (loopBody s).spins = s.spins
      ∧ opsOf loopBody s =
        [Op.GPIO_getInputPinValue GPIO_PORT_P1 GPIO_PIN1,
         if s.inp GPIO_PORT_P1 GPIO_PIN1 = PRESSED
         then Op.GPIO_setOutputHighOnPin GPIO_PORT_P1 GPIO_PIN0
         else Op.GPIO_setOutputLowOnPin GPIO_PORT_P1 GPIO_PIN0,
         Op.Timer32_getValue TIMER32_0_BASE]
        ++ (if (Timer32_getValue TIMER32_0_BASE s).1 = 0 then
            [Op.GPIO_toggleOutputOnPin GPIO_PORT_P2 GPIO_PIN1,
             Op.Timer32_setCount TIMER32_0_BASE 3000000,
             Op.Timer32_startTimer TIMER32_0_BASE true]
          else [])
      ∧ opsOf loopBody s = opsOf mirrorStep s ++ opsOf timerStep (mirrorStep s)
      ∧ (opsOf mirrorStep s).length = 2
      ∧ (opsOf loopBody s).count (Op.GPIO_getInputPinValue GPIO_PORT_P1 GPIO_PIN1) = 1
      ∧ (opsOf loopBody s).count (Op.GPIO_setOutputHighOnPin GPIO_PORT_P1 GPIO_PIN0)
          + (opsOf loopBody s).count (Op.GPIO_setOutputLowOnPin GPIO_PORT_P1 GPIO_PIN0) = 1
      ∧ (opsOf loopBody s).count (Op.Timer32_getValue TIMER32_0_BASE) = 1
      ∧ (opsOf loopBody s).length =
          (if (Timer32_getValue TIMER32_0_BASE s).1 = 0 then 6 else 3)
      ∧ (opsOf loopBody s).length ≤ 6
      ∧ (∀ es : List Env,
          (mainLoop es s).spins = s.spins
            ∧ (opsOf (mainLoop es) s).count
                (Op.GPIO_getInputPinValue GPIO_PORT_P1 GPIO_PIN1) = es.length
            ∧ (opsOf (mainLoop es) s).length ≤ 6 * es.length)
      ∧ (loopBodyOf false s).spins = s.spins + 240000 := by
  have hm : opsOf mirrorStep s =
      [Op.GPIO_getInputPinValue GPIO_PORT_P1 GPIO_PIN1,
       if s.inp GPIO_PORT_P1 GPIO_PIN1 = PRESSED
       then Op.GPIO_setOutputHighOnPin GPIO_PORT_P1 GPIO_PIN0
       else Op.GPIO_setOutputLowOnPin GPIO_PORT_P1 GPIO_PIN0] := by
    simp [opsOf, mirrorStep_eq]
  have hrun : ∀ es : List Env,
      (mainLoop es s).spins = s.spins
        ∧ (opsOf (mainLoop es) s).count
            (Op.GPIO_getInputPinValue GPIO_PORT_P1 GPIO_PIN1) = es.length
        ∧ (opsOf (mainLoop es) s).length ≤ 6 * es.length := by
    intro es
    obtain ⟨hs, l, hl, hc, hlen⟩ := mainLoop_cost es s
    have hd : opsOf (mainLoop es) s = l := by simp [opsOf, hl]
    exact ⟨hs, by rw [hd, hc], by rw [hd]; exact hlen⟩
  have hbusy := loopBodyOf_false_spins s
  have hspin := loopBody_spins s
  refine ⟨rfl, loopBodyOf_true s, hspin, ?_⟩
  rw [getValue_fst]
  by_cases hz : (s.timer TIMER32_0_BASE).value = 0
  · have hmz : ((mirrorStep s).timer TIMER32_0_BASE).value = 0 := by
      rw [mirrorStep_eq]; exact hz
    have hl : opsOf loopBody s =
        [Op.GPIO_getInputPinValue GPIO_PORT_P1 GPIO_PIN1,
         if s.inp GPIO_PORT_P1 GPIO_PIN1 = PRESSED
         then Op.GPIO_setOutputHighOnPin GPIO_PORT_P1 GPIO_PIN0
         else Op.GPIO_setOutputLowOnPin GPIO_PORT_P1 GPIO_PIN0,
         Op.Timer32_getValue TIMER32_0_BASE,
         Op.GPIO_toggleOutputOnPin GPIO_PORT_P2 GPIO_PIN1,
         Op.Timer32_setCount TIMER32_0_BASE 3000000,
         Op.Timer32_startTimer TIMER32_0_BASE true] := by
      simp [opsOf, loopBody_zero s hz, ONE_SEC_COUNT]
    have ht : opsOf timerStep (mirrorStep s) =
        [Op.Timer32_getValue TIMER32_0_BASE,
         Op.GPIO_toggleOutputOnPin GPIO_PORT_P2 GPIO_PIN1,
         Op.Timer32_setCount TIMER32_0_BASE 3000000,
         Op.Timer32_startTimer TIMER32_0_BASE true] := by
      simp [opsOf, timerStep_zero _ hmz, ONE_SEC_COUNT]
    rw [hl, hm, ht, if_pos hz, if_pos hz]
    refine ⟨?_, ?_, ?_, ?_, ?_, ?_, ?_, ?_, hrun, hbusy⟩ <;>
      by_cases hp : s.inp GPIO_PORT_P1 GPIO_PIN1 = PRESSED <;> simp [hp]
  · have hmz : ((mirrorStep s).timer TIMER32_0_BASE).value ≠ 0 := by
      rw [mirrorStep_eq]; exact hz
    have hl : opsOf loopBody s =
        [Op.GPIO_getInputPinValue GPIO_PORT_P1 GPIO_PIN1,
         if s.inp GPIO_PORT_P1 GPIO_PIN1 = PRESSED
         then Op.GPIO_setOutputHighOnPin GPIO_PORT_P1 GPIO_PIN0
         else Op.GPIO_setOutputLowOnPin GPIO_PORT_P1 GPIO_PIN0,
         Op.Timer32_getValue TIMER32_0_BASE] := by
      simp [opsOf, loopBody_nonzero s hz]
    have ht : opsOf timerStep (mirrorStep s) = [Op.Timer32_getValue TIMER32_0_BASE] := by
      simp [opsOf, timerStep_nonzero _ hmz]
    rw [hl, hm, ht, if_neg hz, if_neg hz]
    refine ⟨?_, ?_, ?_, ?_, ?_, ?_, ?_, ?_, hrun, hbusy⟩ <;>
      by_cases hp : s.inp GPIO_PORT_P1 GPIO_PIN1 = PRESSED <;> simp [hp]

/-- C10 (period constants): `ONE_SEC_COUNT = 3000000` is one second of ticks
at the 3 MHz clock with prescaler 1, is below `2^32` and is therefore loaded
without truncation; `HALF_SEC_COUNT = 1500000` is half of it and
`TWO_SEC_COUNT = 6000000` twice it, both below `2^32`.  The count loaded by
the C function `initialize` and the count reloaded by a firing loop iteration
are this same constant, and no other count is ever passed to
`Timer32_setCount`. -/
theorem C10_period_constants (s : Periph) :
    ONE_SEC_COUNT = 3000000
      ∧ ONE_SEC_COUNT = 1 * CLOCK_HZ
      ∧ ONE_SEC_COUNT < 2 ^ 32
      ∧ ONE_SEC_COUNT % 2 ^ 32 = ONE_SEC_COUNT
      ∧ HALF_SEC_COUNT = 1500000
      ∧ HALF_SEC_COUNT = ONE_SEC_COUNT / 2
      ∧ 2 * HALF_SEC_COUNT = ONE_SEC_COUNT
      ∧ TWO_SEC_COUNT = 6000000
      ∧ TWO_SEC_COUNT = 2 * ONE_SEC_COUNT
      ∧ HALF_SEC_COUNT < 2 ^ 32
      ∧ TWO_SEC_COUNT < 2 ^ 32
      ∧ Op.Timer32_setCount TIMER32_0_BASE ONE_SEC_COUNT ∈ opsOf initialize_ s
      ∧ ((initialize_ s).timer TIMER32_0_BASE).value = ONE_SEC_COUNT
      ∧ ((loopBody s).timer TIMER32_0_BASE).value =
          (if (Timer32_getValue TIMER32_0_BASE s).1 = 0 then ONE_SEC_COUNT
            else (s.timer TIMER32_0_BASE).value)
      ∧ (∀ (b : Timer32Base) (c : Nat),
          Op.Timer32_setCount b c ∈ opsOf initialize_ s ++ opsOf loopBody s →
            b = TIMER32_0_BASE ∧ c = ONE_SEC_COUNT) := by
  have hi : opsOf initialize_ s =
        [Op.WDT_A_hold WDT_A_BASE,
         Op.GPIO_setAsOutputPin GPIO_PORT_P1 GPIO_PIN0,
         Op.GPIO_setAsOutputPin GPIO_PORT_P2 GPIO_PIN1,
         Op.GPIO_setAsInputPinWithPullUpResistor GPIO_PORT_P1 GPIO_PIN1,
         Op.Timer32_initModule TIMER32_0_BASE TIMER32_PRESCALER_1 TIMER32_32BIT
           TIMER32_PERIODIC_MODE,
         Op.Timer32_setCount TIMER32_0_BASE ONE_SEC_COUNT,
         Op.Timer32_startTimer TIMER32_0_BASE true] := by
    simp [opsOf, initialize_, Timer32_startTimer, Timer32_setCount, Timer32_initModule,
      GPIO_setAsInputPinWithPullUpResistor, GPIO_setAsOutputPin, WDT_A_hold, logOp]
  refine ⟨rfl, rfl, by decide, by decide, rfl, by decide, by decide, rfl, by decide,
    by decide, by decide, ?_, ?_, ?_, ?_⟩
  · rw [hi]; simp
  · rw [initialize_timer0]; rfl
  · rw [getValue_fst, loopBody_timer0]
    split <;> rfl
  · intro b c hmem
    rw [hi] at hmem
    by_cases hz : (s.timer TIMER32_0_BASE).value = 0
    · by_cases hp : s.inp GPIO_PORT_P1 GPIO_PIN1 = PRESSED <;>
        simpa [opsOf, loopBody_zero s hz, hp] using hmem
    · by_cases hp : s.inp GPIO_PORT_P1 GPIO_PIN1 = PRESSED <;>
        simpa [opsOf, loopBody_nonzero s hz, hp] using hmem

end Timer32Example
